import Mathlib

/-!
Verification development for the Re-Thread fabric exchange repository.

The repository is a TypeScript web application.  Its service layer exists in
two implementations: a Firebase-backed one (the authService / Firestore
functions, together with the mock geocoder of the geoService) and an in-memory
mock implementation (src/services/firebaseService.ts).  This file gives a
shallow embedding of the data model and of the operations the claims concern:

  - the Haversine distance and the radius filter of getNearbyListings,
    modelled over the real numbers (the source computes with JavaScript
    numbers; the closed-form trigonometric formula is embedded exactly);
  - the MapView client-side filter pipeline (postType, category, listingType);
  - the conversation lookup-or-create and message-send operations, modelled
    as explicit state transformers over a Database record whose fields mirror
    the Firestore collections; document auto-ids are modelled by a counter;
  - the mock geocoder (case-insensitive substring match on three cities);
  - the error-translation behaviour of every backend call: each Firebase
    wrapper takes the outcomes of its vendor operations as explicit
    Except-valued arguments and returns the translated result together with
    the list of console log entries it emits.
-/

/-- Latitude/longitude pair; the source type GeoPoint. -/
structure GeoPoint where
  latitude : ℝ
  longitude : ℝ

/-- The source enum PostType. -/
inductive PostType where
  | offer
  | request
deriving DecidableEq

/-- The source enum ListingType (meaningful only for offers). -/
inductive ListingType where
  | free
  | swap
  | sale
deriving DecidableEq

/-- The source enum Category. -/
inductive Category where
  | denim
  | yarn
  | cotton
  | silk
  | wool
  | leather
  | other
deriving DecidableEq

/-- The source type User. -/
structure User where
  id : String
  email : String
  displayName : String
deriving DecidableEq

/-- The fields of a Firebase Auth user used by convertFirebaseUser:
optional email and displayName, as in the vendor SDK. -/
structure FirebaseUser where
  uid : String
  email : Option String
  displayName : Option String
deriving DecidableEq

/-- Listing fields excluding the document id and the denormalized user. -/
structure ListingData where
  title : String
  description : String
  postType : PostType
  listingType : ListingType
  category : Category
  quantity : String
  imageUrl : String
  userId : String
  location : GeoPoint
  locationName : String

/-- A stored listing document: data plus its document id. -/
structure ListingDoc extends ListingData where
  id : String

/-- The source type Listing: a listing document plus the optional
denormalized user. -/
structure Listing extends ListingDoc where
  user : Option User

/-- A stored gallery document. -/
structure GalleryDoc where
  id : String
  title : String
  imageUrl : String
  userId : String
  originalListingId : Option String
deriving DecidableEq

/-- The source type GalleryPost. -/
structure GalleryPost extends GalleryDoc where
  user : Option User
deriving DecidableEq

/-- The source type Conversation.  Timestamps are modelled as naturals. -/
structure Conversation where
  id : String
  participantIds : List String
  lastMessageText : String
  updatedAt : Nat
deriving DecidableEq

/-- The source type Message. -/
structure Message where
  id : String
  conversationId : String
  senderId : String
  text : String
  createdAt : Nat
deriving DecidableEq

/-- The Firestore document store: one field per collection, plus a counter
modelling the vendor generation of fresh document ids. -/
structure Database where
  users : List User
  listings : List ListingDoc
  gallery : List GalleryDoc
  conversations : List Conversation
  messages : List Message
  nextId : Nat

/-- Fresh document id derived from the id counter. -/
def mkDocId (n : Nat) : String := "doc" ++ toString n

/-- JavaScript truthiness fallback on strings: x or y where both null and
the empty string select the fallback. -/
def jsStringOr (x : Option String) (y : String) : String :=
  match x with
  | some s => if s = "" then y else s
  | none => y

/-- The source helper convertFirebaseUser: displayName falls back to the
part of the email before the at sign, then to the literal User. -/
def convertFirebaseUser (fu : FirebaseUser) : User :=
  { id := fu.uid
    email := fu.email.getD ""
    displayName :=
      jsStringOr fu.displayName
        (jsStringOr (fu.email.map (fun e => (e.splitOn "@").headD "")) "User") }

/-- Degree-to-radian conversion used by haversineDistance. -/
noncomputable def toRad (x : ℝ) : ℝ := x * Real.pi / 180

/-- The two-argument arctangent, following the JavaScript Math.atan2
convention (signed zeros aside, which do not exist on the reals). -/
noncomputable def atan2 (y x : ℝ) : ℝ :=
  if 0 < x then Real.arctan (y / x)
  else if x < 0 then
    (if 0 ≤ y then Real.arctan (y / x) + Real.pi else Real.arctan (y / x) - Real.pi)
  else
    (if 0 < y then Real.pi / 2 else if y < 0 then -(Real.pi / 2) else 0)

/-- The source helper haversineDistance (identical in both service
implementations): great-circle distance in kilometers with Earth radius
6371 km. -/
noncomputable def haversineDistance (coords1 coords2 : GeoPoint) : ℝ :=
  let dLat := toRad (coords2.latitude - coords1.latitude)
  let dLon := toRad (coords2.longitude - coords1.longitude)
  let lat1 := toRad coords1.latitude
  let lat2 := toRad coords2.latitude
  let a := Real.sin (dLat / 2) * Real.sin (dLat / 2) +
    Real.sin (dLon / 2) * Real.sin (dLon / 2) * Real.cos lat1 * Real.cos lat2
  let c := 2 * atan2 (Real.sqrt a) (Real.sqrt (1 - a))
  6371 * c

/-- User-document lookup performed for each listing (getDoc on the users
collection); a fetch failure or a missing document leaves the user absent. -/
def findUser (users : List User) (userId : String) : Option User :=
  users.find? (fun u => decide (u.id = userId))

/-- Conversion of a stored listing document into the Listing returned to the
caller, with the denormalized user attached. -/
def mkListing (users : List User) (d : ListingDoc) : Listing :=
  { toListingDoc := d, user := findUser users d.userId }

open Classical in
/-- The filtering loop of the Firebase getNearbyListings: walk the fetched
documents in order and keep exactly those within the radius. -/
noncomputable def nearbyFilter (center : GeoPoint) (radiusInKm : ℝ) :
    List ListingDoc → List User → List Listing
  | [], _ => []
  | d :: rest, users =>
    if haversineDistance center d.location ≤ radiusInKm then
      mkListing users d :: nearbyFilter center radiusInKm rest users
    else
      nearbyFilter center radiusInKm rest users

/-- Substring search on character lists, the semantics of the JavaScript
String.prototype.includes. -/
def containsSub (needle : List Char) : List Char → Bool
  | [] => needle.isEmpty
  | c :: rest => needle.isPrefixOf (c :: rest) || containsSub needle rest

/-- JavaScript s.includes(sub). -/
def jsIncludes (s sub : String) : Bool := containsSub sub.data s.data

/-- JavaScript s.toLowerCase(), as a character-wise map (the queries involved
are plain ASCII city names). -/
def jsToLower (s : String) : String := { data := s.data.map Char.toLower }

/-- The fallback (mock) geocode implementation of the geoService:
case-insensitive substring match against three hard-coded cities, with
Birmingham as the default. -/
noncomputable def geocode (postcode : String) : GeoPoint :=
  if jsIncludes (jsToLower postcode) "london" then
    { latitude := 51.5074, longitude := -0.1278 }
  else if jsIncludes (jsToLower postcode) "manchester" then
    { latitude := 53.4808, longitude := -2.2426 }
  else
    { latitude := 52.4862, longitude := -1.8904 }

/-- The query-and-scan of getOrCreateConversation: query the conversations
whose participantIds contain user1Id (the Firestore array-contains clause,
in store order), then scan the results for one whose participants also
include user2Id. -/
def findConversation (convs : List Conversation) (user1Id user2Id : String) :
    Option Conversation :=
  (convs.filter (fun c => c.participantIds.contains user1Id)).find?
    (fun c => c.participantIds.contains user2Id)

/-- The success-path state semantics of getOrCreateConversation: return the
id of a found conversation and leave the store untouched, or insert exactly
one new conversation with the two given participants and an empty last
message. -/
def getOrCreateConversation (db : Database) (user1Id user2Id : String)
    (now : Nat) : String × Database :=
  match findConversation db.conversations user1Id user2Id with
  | some c => (c.id, db)
  | none =>
    let cid := mkDocId db.nextId
    (cid,
      { db with
          conversations := db.conversations ++
            [{ id := cid, participantIds := [user1Id, user2Id],
               lastMessageText := "", updatedAt := now }]
          nextId := db.nextId + 1 })

/-- The success-path state semantics of sendMessage: append one message to
the messages sub-collection and update the parent conversation document. -/
def sendMessage (db : Database) (conversationId senderId text : String)
    (now : Nat) : Database :=
  { db with
      messages := db.messages ++
        [{ id := mkDocId db.nextId, conversationId := conversationId,
           senderId := senderId, text := text, createdAt := now }]
      conversations := db.conversations.map (fun c =>
        if c.id = conversationId then
          { c with lastMessageText := text, updatedAt := now }
        else c)
      nextId := db.nextId + 1 }

/-- Alias for the success-path semantics of getOrCreateConversation, used
inside the namespaced error wrapper. -/
def gocPure : Database → String → String → Nat → String × Database :=
  getOrCreateConversation

/-- Alias for the success-path semantics of sendMessage, used inside the
namespaced error wrapper. -/
def sendMessagePure : Database → String → String → String → Nat → Database :=
  sendMessage

/-- The MapView filter pipeline (identical in both MapView sources): the
value all of a select is modelled as none.  The third stage applies the
listingType test only to offer rows. -/
def applyMapFilters (listings : List Listing) (postTypeFilter : Option PostType)
    (categoryFilter : Option Category) (listingTypeFilter : Option ListingType) :
    List Listing :=
  let r1 :=
    match postTypeFilter with
    | none => listings
    | some pt => listings.filter (fun l => decide (l.postType = pt))
  let r2 :=
    match categoryFilter with
    | none => r1
    | some cat => r1.filter (fun l => decide (l.category = cat))
  match listingTypeFilter with
  | none => r2
  | some lt =>
    r2.filter (fun l =>
      !(decide (l.postType = PostType.offer)) || decide (l.listingType = lt))

/-- An error raised by a vendor SDK call, carrying the vendor error code. -/
structure VendorError where
  code : String
deriving DecidableEq

/-- A console entry emitted by a service call: info and warn entries carry a
message (interpolated data is reduced to the fixed prefix); error entries
record the caught vendor error. -/
inductive LogEntry where
  | info (msg : String)
  | warn (msg : String) (e : VendorError)
  | error (msg : String) (e : VendorError)
deriving DecidableEq

/-- Tests whether a log entry records a caught vendor error. -/
def isVendorErrorEntry : LogEntry → Bool
  | .error _ _ => true
  | _ => false

/-- The signIn switch on vendor auth error codes. -/
def signInErrorMessage (code : String) : String :=
  if code = "auth/user-not-found" ∨ code = "auth/wrong-password" then
    "Invalid email or password"
  else if code = "auth/invalid-email" then "Invalid email address"
  else if code = "auth/user-disabled" then "This account has been disabled"
  else if code = "auth/too-many-requests" then
    "Too many failed login attempts. Please try again later"
  else "Failed to sign in. Please try again"

/-- The signUp switch on vendor auth error codes. -/
def signUpErrorMessage (code : String) : String :=
  if code = "auth/email-already-in-use" then "Email is already registered"
  else if code = "auth/invalid-email" then "Invalid email address"
  else if code = "auth/weak-password" then
    "Password should be at least 6 characters"
  else "Failed to create account. Please try again"

/-- The fixed user-facing messages the Firebase service layer re-throws. -/
def userFacingMessages : List String :=
  [ "Invalid email or password"
  , "Invalid email address"
  , "This account has been disabled"
  , "Too many failed login attempts. Please try again later"
  , "Failed to sign in. Please try again"
  , "Failed to sign out"
  , "Email is already registered"
  , "Password should be at least 6 characters"
  , "Failed to create account. Please try again"
  , "Failed to upload image. Please try again."
  , "Failed to create listing. Please try again."
  , "Failed to fetch listings. Please try again."
  , "Failed to fetch gallery posts. Please try again."
  , "Failed to fetch your listings. Please try again."
  , "Failed to delete listing. Please try again."
  , "Failed to update listing. Please try again."
  , "Failed to start conversation. Please try again."
  , "Failed to send message. Please try again." ]

namespace FS

/-- authService.signIn: the vendor call outcome is passed explicitly; a
failure is logged and translated by the error-code switch. -/
def signIn (r : Except VendorError FirebaseUser) :
    Except String User × List LogEntry :=
  match r with
  | .ok fu => (.ok (convertFirebaseUser fu), [])
  | .error e => (.error (signInErrorMessage e.code), [.error "Sign in error:" e])

/-- authService.signOut. -/
def signOut (r : Except VendorError Unit) :
    Except String Unit × List LogEntry :=
  match r with
  | .ok _ => (.ok (), [])
  | .error e => (.error "Failed to sign out", [.error "Sign out error:" e])

/-- authService.signUp: the three awaited vendor operations (create user,
update profile, store profile document) are passed as explicit outcomes;
any failure is caught by the single catch block. -/
def signUp (createRes : Except VendorError FirebaseUser)
    (profileRes : Except VendorError Unit) (saveRes : Except VendorError Unit) :
    Except String User × List LogEntry :=
  match createRes with
  | .error e => (.error (signUpErrorMessage e.code), [.error "Sign up error:" e])
  | .ok fu =>
    match profileRes with
    | .error e => (.error (signUpErrorMessage e.code), [.error "Sign up error:" e])
    | .ok _ =>
      match saveRes with
      | .error e =>
        (.error (signUpErrorMessage e.code), [.error "Sign up error:" e])
      | .ok _ => (.ok (convertFirebaseUser fu), [])

/-- uploadImage: upload then download-URL retrieval, both fallible. -/
def uploadImage (fileName : String) (uploadRes : Except VendorError Unit)
    (urlRes : Except VendorError String) :
    Except String String × List LogEntry :=
  match uploadRes with
  | .error e =>
    (.error "Failed to upload image. Please try again.",
      [.info ("Uploading file: " ++ fileName), .error "Upload error:" e])
  | .ok _ =>
    match urlRes with
    | .error e =>
      (.error "Failed to upload image. Please try again.",
        [.info ("Uploading file: " ++ fileName), .error "Upload error:" e])
    | .ok url =>
      (.ok url,
        [.info ("Uploading file: " ++ fileName),
         .info ("File uploaded successfully: " ++ url)])

/-- createListing: addDoc yields the new id; the inner user fetch failure is
caught separately with a warning and leaves the user absent. -/
def createListing (listingData : ListingData)
    (addRes : Except VendorError String)
    (userRes : Except VendorError (Option User)) :
    Except String Listing × List LogEntry :=
  match addRes with
  | .error e =>
    (.error "Failed to create listing. Please try again.",
      [.error "Error creating listing:" e])
  | .ok newId =>
    match userRes with
    | .error e =>
      (.ok { toListingDoc := { toListingData := listingData, id := newId },
             user := none },
        [.info ("Created new listing with ID: " ++ newId),
         .warn "Could not fetch user data:" e])
    | .ok u =>
      (.ok { toListingDoc := { toListingData := listingData, id := newId },
             user := u },
        [.info ("Created new listing with ID: " ++ newId)])

/-- getNearbyListings: the getDocs outcome is passed explicitly; on success
the fetched documents run through the radius-filtering loop. -/
noncomputable def getNearbyListings (center : GeoPoint) (radiusInKm : ℝ)
    (docsRes : Except VendorError (List ListingDoc)) (users : List User) :
    Except String (List Listing) × List LogEntry :=
  match docsRes with
  | .error e =>
    (.error "Failed to fetch listings. Please try again.",
      [.info "Fetching listings near", .error "Error fetching nearby listings:" e])
  | .ok docs =>
    (.ok (nearbyFilter center radiusInKm docs users),
      [.info "Fetching listings near", .info "Found listings within radius"])

/-- Conversion of a gallery document with its denormalized user. -/
def mkGalleryPost (users : List User) (d : GalleryDoc) : GalleryPost :=
  { toGalleryDoc := d, user := findUser users d.userId }

/-- getGalleryPosts. -/
def getGalleryPosts (docsRes : Except VendorError (List GalleryDoc))
    (users : List User) :
    Except String (List GalleryPost) × List LogEntry :=
  match docsRes with
  | .error e =>
    (.error "Failed to fetch gallery posts. Please try again.",
      [.error "Error fetching gallery posts:" e])
  | .ok docs =>
    (.ok (docs.map (mkGalleryPost users)), [.info "Found gallery posts"])

/-- getListingsForUser: the where clause on userId is applied to the stored
collection, modelling the server-side equality query. -/
def getListingsForUser (userId : String)
    (docsRes : Except VendorError (List ListingDoc)) (users : List User) :
    Except String (List Listing) × List LogEntry :=
  match docsRes with
  | .error e =>
    (.error "Failed to fetch your listings. Please try again.",
      [.info ("Fetching listings for user: " ++ userId),
       .error "Error fetching user listings:" e])
  | .ok docs =>
    (.ok ((docs.filter (fun d => decide (d.userId = userId))).map
        (mkListing users)),
      [.info ("Fetching listings for user: " ++ userId),
       .info "Found listings for user"])

/-- deleteListing. -/
def deleteListing (listingId : String) (delRes : Except VendorError Unit) :
    Except String Unit × List LogEntry :=
  match delRes with
  | .error e =>
    (.error "Failed to delete listing. Please try again.",
      [.info ("Deleting listing: " ++ listingId),
       .error "Error deleting listing:" e])
  | .ok _ =>
    (.ok (),
      [.info ("Deleting listing: " ++ listingId),
       .info "Listing deleted successfully"])

/-- updateListing. -/
def updateListing (listingId : String) (updRes : Except VendorError Unit) :
    Except String Unit × List LogEntry :=
  match updRes with
  | .error e =>
    (.error "Failed to update listing. Please try again.",
      [.info ("Updating listing: " ++ listingId),
       .error "Error updating listing:" e])
  | .ok _ =>
    (.ok (),
      [.info ("Updating listing: " ++ listingId),
       .info "Listing updated successfully"])

end FS

/-- getOrCreateConversation with its catch block: the query and the addDoc
outcomes are passed explicitly; the success path follows the pure state
semantics. -/
def FS.getOrCreateConversation (db : Database) (user1Id user2Id : String)
    (now : Nat) (queryRes : Except VendorError Unit)
    (addRes : Except VendorError Unit) :
    Except String (String × Database) × List LogEntry :=
  match queryRes with
  | .error e =>
    (.error "Failed to start conversation. Please try again.",
      [.error "Error getting or creating conversation:" e])
  | .ok _ =>
    match findConversation db.conversations user1Id user2Id with
    | some c => (.ok (c.id, db), [.info ("Found existing conversation: " ++ c.id)])
    | none =>
      match addRes with
      | .error e =>
        (.error "Failed to start conversation. Please try again.",
          [.info "Creating new conversation",
           .error "Error getting or creating conversation:" e])
      | .ok _ =>
        (.ok (gocPure db user1Id user2Id now),
          [.info "Creating new conversation"])

/-- sendMessage with its catch block: the addDoc and updateDoc outcomes are
passed explicitly; the state on a failed call is not modelled. -/
def FS.sendMessage (db : Database) (conversationId senderId text : String)
    (now : Nat) (addRes : Except VendorError Unit)
    (updRes : Except VendorError Unit) :
    Except String Database × List LogEntry :=
  match addRes with
  | .error e =>
    (.error "Failed to send message. Please try again.",
      [.info ("Sending message to conversation: " ++ conversationId),
       .error "Error sending message:" e])
  | .ok _ =>
    match updRes with
    | .error e =>
      (.error "Failed to send message. Please try again.",
        [.info ("Sending message to conversation: " ++ conversationId),
         .error "Error sending message:" e])
    | .ok _ =>
      (.ok (sendMessagePure db conversationId senderId text now),
        [.info ("Sending message to conversation: " ++ conversationId),
         .info "Message sent successfully"])

namespace Mock

/-- The in-memory users of the mock service implementation. -/
def mockUsers : List User :=
  [ { id := "user1", email := "crafter@example.com", displayName := "Alice" }
  , { id := "user2", email := "designer@example.com", displayName := "Bob" } ]

/-- The mock auth.signIn: no try/catch; an unknown email throws directly and
the only console output is the informational attempt line. -/
def signIn (email pass : String) : Except String User × List LogEntry :=
  ( match mockUsers.find? (fun u => decide (u.email = email)) with
    | some u => .ok u
    | none => .error "User not found"
  , [.info ("Signing in with " ++ email ++ " / " ++ pass)] )

open Classical in
/-- The mock getNearbyListings: enrich every stored listing with its user,
then filter by Haversine distance. -/
noncomputable def getNearbyListings (center : GeoPoint) (radiusInKm : ℝ)
    (docs : List ListingDoc) (users : List User) : List Listing :=
  (docs.map (mkListing users)).filter
    (fun l => decide (haversineDistance center l.location ≤ radiusInKm))

end Mock

theorem mkListing_location (users : List User) (d : ListingDoc) :
    (mkListing users d).location = d.location := rfl

theorem toRad_zero : toRad 0 = 0 := by
  simp [toRad]

theorem toRad_180 : toRad 180 = Real.pi := by
  rw [toRad, mul_comm, mul_div_assoc]
  norm_num

theorem haversine_self (p : GeoPoint) : haversineDistance p p = 0 := by
  simp only [haversineDistance, sub_self, toRad_zero, zero_div, Real.sin_zero,
    mul_zero, zero_mul, add_zero, zero_add, Real.sqrt_zero, sub_zero,
    Real.sqrt_one]
  rw [atan2, if_pos one_pos, zero_div, Real.arctan_zero, mul_zero, mul_zero]

theorem haversine_antipodal :
    haversineDistance { latitude := 0, longitude := 0 }
      { latitude := 0, longitude := 180 } = 6371 * Real.pi := by
  have h2 : atan2 1 0 = Real.pi / 2 := by
    rw [atan2, if_neg (lt_irrefl (0 : ℝ)), if_neg (lt_irrefl (0 : ℝ)),
      if_pos one_pos]
  simp only [haversineDistance, sub_self, sub_zero, toRad_zero, zero_div,
    Real.sin_zero, zero_mul, toRad_180, Real.sin_pi_div_two, Real.cos_zero,
    mul_one, one_mul, zero_add, Real.sqrt_one, Real.sqrt_zero, h2]
  ring

open Classical in
theorem nearbyFilter_eq_filter_map (center : GeoPoint) (r : ℝ)
    (docs : List ListingDoc) (users : List User) :
    nearbyFilter center r docs users
      = (docs.map (mkListing users)).filter
          (fun l => decide (haversineDistance center l.location ≤ r)) := by
  induction docs with
  | nil => rfl
  | cons d t ih =>
    by_cases h : haversineDistance center d.location ≤ r
    · simp only [nearbyFilter, if_pos h, List.map_cons, List.filter_cons,
        mkListing_location, decide_eq_true h, if_pos, ih]
    · simp only [nearbyFilter, if_neg h, List.map_cons, List.filter_cons,
        mkListing_location, decide_eq_false h, Bool.false_eq_true, if_false, ih]

/-- Concrete search center used by witnesses. -/
noncomputable def centerW : GeoPoint := { latitude := 0, longitude := 0 }

/-- A stored listing located exactly at the witness center. -/
noncomputable def docNearW : ListingDoc :=
  { title := "near", description := "", postType := .offer,
    listingType := .free, category := .denim, quantity := "",
    imageUrl := "", userId := "user1",
    location := { latitude := 0, longitude := 0 }, locationName := "",
    id := "near" }

/-- A stored listing on the antipode of the witness center, 6371 times pi
(about 20015) kilometers away. -/
noncomputable def docFarW : ListingDoc :=
  { title := "far", description := "", postType := .offer,
    listingType := .free, category := .denim, quantity := "",
    imageUrl := "", userId := "user1",
    location := { latitude := 0, longitude := 180 }, locationName := "",
    id := "far" }

open Classical in
/-- Claim C1: for every center, radius and stored listing collection,
getNearbyListings returns exactly the listings whose Haversine distance
(Earth radius 6371 km) from the center is at most the radius and excludes
all others; a listing at the center has distance 0 and is included whenever
the radius is nonnegative, and a listing farther away than the radius (such
as one 20,000 km away) is excluded.  Both service implementations compute
the same filtered list. -/
theorem getNearbyListings_radius_exact (center : GeoPoint) (radius : ℝ)
    (docs : List ListingDoc) (users : List User) :
    (FS.getNearbyListings center radius (Except.ok docs) users).1
        = Except.ok (nearbyFilter center radius docs users)
    ∧ Mock.getNearbyListings center radius docs users
        = nearbyFilter center radius docs users
    ∧ (∀ l : Listing, l ∈ nearbyFilter center radius docs users ↔
        l ∈ docs.map (mkListing users)
          ∧ haversineDistance center l.location ≤ radius)
    ∧ haversineDistance center center = 0
    ∧ (0 ≤ radius → ∀ d ∈ docs, d.location = center →
        mkListing users d ∈ nearbyFilter center radius docs users)
    ∧ (∀ d ∈ docs, radius < haversineDistance center d.location →
        mkListing users d ∉ nearbyFilter center radius docs users) := by
  have hmem : ∀ l : Listing, l ∈ nearbyFilter center radius docs users ↔
      l ∈ docs.map (mkListing users)
        ∧ haversineDistance center l.location ≤ radius := by
    intro l
    rw [nearbyFilter_eq_filter_map, List.mem_filter, decide_eq_true_eq]
  refine ⟨rfl, (nearbyFilter_eq_filter_map center radius docs users).symm,
    hmem, haversine_self center, ?_, ?_⟩
  · intro hr d hd hloc
    refine (hmem (mkListing users d)).mpr ⟨List.mem_map_of_mem _ hd, ?_⟩
    rw [mkListing_location, hloc, haversine_self]
    exact hr
  · intro d hd hlt hin
    have hle := ((hmem (mkListing users d)).mp hin).2
    rw [mkListing_location] at hle
    exact absurd hle (not_le.mpr hlt)

/-- Witness for C1: with a 15 km radius around the origin, the listing at
the center is returned and the antipodal listing is not. -/
theorem getNearbyListings_radius_exact_witness :
    mkListing [] docNearW ∈ nearbyFilter centerW 15 [docNearW, docFarW] []
    ∧ mkListing [] docFarW ∉ nearbyFilter centerW 15 [docNearW, docFarW] [] := by
  have h := getNearbyListings_radius_exact centerW 15 [docNearW, docFarW] []
  constructor
  · exact h.2.2.2.2.1 (by norm_num) docNearW (by simp) rfl
  · refine h.2.2.2.2.2 docFarW (by simp) ?_
    have hd : haversineDistance centerW docFarW.location = 6371 * Real.pi :=
      haversine_antipodal
    rw [hd]
    have hpi := Real.pi_gt_three
    nlinarith

/-- Claim C9: the list returned by the radius filter is a subsequence of the
fetched (user-enriched) listing collection in its original order, in both
service implementations; it never reorders, duplicates or fabricates
entries. -/
theorem getNearbyListings_sublist (center : GeoPoint) (radius : ℝ)
    (docs : List ListingDoc) (users : List User) :
    (nearbyFilter center radius docs users).Sublist (docs.map (mkListing users))
    ∧ (Mock.getNearbyListings center radius docs users).Sublist
        (docs.map (mkListing users)) := by
  constructor
  · rw [nearbyFilter_eq_filter_map]
    exact List.filter_sublist _
  · exact List.filter_sublist _

theorem find?_filter_and {α : Type} (l : List α) (p q : α → Bool) :
    (l.filter p).find? q = l.find? (fun a => p a && q a) := by
  induction l with
  | nil => rfl
  | cons a t ih =>
    cases hp : p a <;> cases hq : q a <;>
      simp [List.filter_cons, List.find?_cons, hp, hq, ih]

theorem findConversation_eq (convs : List Conversation) (u1 u2 : String) :
    findConversation convs u1 u2
      = convs.find? (fun c =>
          c.participantIds.contains u1 && c.participantIds.contains u2) := by
  unfold findConversation
  exact find?_filter_and convs _ _

theorem find?_and_comm {α : Type} (l : List α) (p q : α → Bool) :
    l.find? (fun a => p a && q a) = l.find? (fun a => q a && p a) := by
  induction l with
  | nil => rfl
  | cons a t ih =>
    cases hp : p a <;> cases hq : q a <;> simp [List.find?_cons, hp, hq, ih]

theorem findConversation_comm (convs : List Conversation) (u1 u2 : String) :
    findConversation convs u1 u2 = findConversation convs u2 u1 := by
  rw [findConversation_eq, findConversation_eq, find?_and_comm]

theorem goc_found {db : Database} {u1 u2 : String} (now : Nat)
    {c : Conversation} (h : findConversation db.conversations u1 u2 = some c) :
    getOrCreateConversation db u1 u2 now = (c.id, db) := by
  simp [getOrCreateConversation, h]

/-- Claim C2: sequential repeated calls of getOrCreateConversation with the
same pair of user ids, in either argument order, return the same
conversation id. -/
theorem getOrCreateConversation_stable (db : Database) (a b : String)
    (n1 n2 : Nat) :
    ((getOrCreateConversation ((getOrCreateConversation db a b n1).2) b a n2).1
        = (getOrCreateConversation db a b n1).1)
    ∧ ((getOrCreateConversation ((getOrCreateConversation db a b n1).2) a b n2).1
        = (getOrCreateConversation db a b n1).1) := by
  cases hf : findConversation db.conversations a b with
  | some c =>
    have hba : findConversation db.conversations b a = some c := by
      rw [findConversation_comm]
      exact hf
    refine ⟨?_, ?_⟩ <;> simp [getOrCreateConversation, hf, hba]
  | none =>
    have hba : findConversation db.conversations b a = none := by
      rw [findConversation_comm]
      exact hf
    have hstate : (getOrCreateConversation db a b n1).2.conversations
        = db.conversations ++
          [{ id := mkDocId db.nextId, participantIds := [a, b],
             lastMessageText := "", updatedAt := n1 }] := by
      simp [getOrCreateConversation, hf]
    have hfst : (getOrCreateConversation db a b n1).1 = mkDocId db.nextId := by
      simp [getOrCreateConversation, hf]
    have hnewba : findConversation
        (getOrCreateConversation db a b n1).2.conversations b a
        = some { id := mkDocId db.nextId, participantIds := [a, b],
                 lastMessageText := "", updatedAt := n1 } := by
      rw [hstate, findConversation_eq, List.find?_append]
      rw [findConversation_eq] at hba
      rw [hba, Option.none_or]
      refine List.find?_cons_of_pos _ ?_
      simp
    have hnewab : findConversation
        (getOrCreateConversation db a b n1).2.conversations a b
        = some { id := mkDocId db.nextId, participantIds := [a, b],
                 lastMessageText := "", updatedAt := n1 } := by
      rw [hstate, findConversation_eq, List.find?_append]
      rw [findConversation_eq] at hf
      rw [hf, Option.none_or]
      refine List.find?_cons_of_pos _ ?_
      simp
    refine ⟨?_, ?_⟩ <;> rw [hfst]
    · rw [goc_found n2 hnewba]
    · rw [goc_found n2 hnewab]

/-- Claim C3: getOrCreateConversation scans the conversations containing the
first id for one also containing the second id; on a hit it returns that id
and inserts nothing, otherwise it inserts exactly one new conversation with
exactly the two given participant ids and an empty last message, returning
the fresh id. -/
theorem getOrCreateConversation_found_or_create (db : Database)
    (u1 u2 : String) (now : Nat) :
    (∀ c, findConversation db.conversations u1 u2 = some c →
        c ∈ db.conversations
        ∧ c.participantIds.contains u1 = true
        ∧ c.participantIds.contains u2 = true
        ∧ getOrCreateConversation db u1 u2 now = (c.id, db))
    ∧ (findConversation db.conversations u1 u2 = none →
        (∀ c ∈ db.conversations,
          ¬(c.participantIds.contains u1 = true
              ∧ c.participantIds.contains u2 = true))
        ∧ (getOrCreateConversation db u1 u2 now).1 = mkDocId db.nextId
        ∧ (getOrCreateConversation db u1 u2 now).2.conversations
            = db.conversations ++
              [{ id := mkDocId db.nextId, participantIds := [u1, u2],
                 lastMessageText := "", updatedAt := now }]) := by
  constructor
  · intro c hc
    have h1 := hc
    rw [findConversation_eq] at h1
    have hmem := List.mem_of_find?_eq_some h1
    have hp := List.find?_some h1
    rw [Bool.and_eq_true] at hp
    exact ⟨hmem, hp.1, hp.2, by simp [getOrCreateConversation, hc]⟩
  · intro hn
    have hn' := hn
    rw [findConversation_eq] at hn'
    refine ⟨?_, ?_, ?_⟩
    · intro c hc hcontra
      refine (List.find?_eq_none.mp hn' c hc) ?_
      rw [Bool.and_eq_true]
      exact ⟨hcontra.1, hcontra.2⟩
    · simp [getOrCreateConversation, hn]
    · simp [getOrCreateConversation, hn]

/-- A stored conversation between alice and bob, used by witnesses. -/
def convW : Conversation :=
  { id := "c1", participantIds := ["alice", "bob"], lastMessageText := "",
    updatedAt := 0 }

/-- A witness database holding one conversation. -/
def dbW : Database :=
  { users := [], listings := [], gallery := [], conversations := [convW],
    messages := [], nextId := 5 }

/-- Witness for C3: the stored alice-bob thread is found (in reversed
argument order) with no insertion, and an unrelated pair inserts exactly one
new conversation. -/
theorem getOrCreateConversation_found_or_create_witness :
    getOrCreateConversation dbW "bob" "alice" 9 = ("c1", dbW)
    ∧ (getOrCreateConversation dbW "x" "y" 9).1 = mkDocId 5
    ∧ (getOrCreateConversation dbW "x" "y" 9).2.conversations
        = [convW, { id := mkDocId 5, participantIds := ["x", "y"],
                    lastMessageText := "", updatedAt := 9 }] := by
  have h1 := (getOrCreateConversation_found_or_create dbW "bob" "alice" 9).1
    convW rfl
  have h2 := (getOrCreateConversation_found_or_create dbW "x" "y" 9).2 rfl
  exact ⟨h1.2.2.2, h2.2.1, h2.2.2.trans rfl⟩

/-- Claim C8: on success, sendMessage appends exactly one message carrying
the given sender and text, sets the conversation last message text and
update time, and leaves participant lists, all other conversations and all
other collections unchanged. -/
theorem sendMessage_frame (db : Database) (cid sid text : String)
    (now : Nat) :
    (sendMessage db cid sid text now).messages
        = db.messages ++
          [{ id := mkDocId db.nextId, conversationId := cid, senderId := sid,
             text := text, createdAt := now }]
    ∧ (∀ c ∈ db.conversations, c.id = cid →
        ({ c with lastMessageText := text, updatedAt := now } : Conversation)
          ∈ (sendMessage db cid sid text now).conversations)
    ∧ (∀ c ∈ db.conversations, c.id ≠ cid →
        c ∈ (sendMessage db cid sid text now).conversations)
    ∧ (∀ c2 ∈ (sendMessage db cid sid text now).conversations,
        ∃ c ∈ db.conversations,
          c2.id = c.id ∧ c2.participantIds = c.participantIds)
    ∧ (sendMessage db cid sid text now).users = db.users
    ∧ (sendMessage db cid sid text now).listings = db.listings
    ∧ (sendMessage db cid sid text now).gallery = db.gallery := by
  refine ⟨rfl, ?_, ?_, ?_, rfl, rfl, rfl⟩
  · intro c hc hid
    simp only [sendMessage]
    exact List.mem_map.mpr ⟨c, hc, by rw [if_pos hid]⟩
  · intro c hc hid
    simp only [sendMessage]
    exact List.mem_map.mpr ⟨c, hc, by rw [if_neg hid]⟩
  · intro c2 h2
    simp only [sendMessage] at h2
    obtain ⟨c, hc, heq⟩ := List.mem_map.mp h2
    refine ⟨c, hc, ?_⟩
    by_cases hid : c.id = cid
    · rw [if_pos hid] at heq
      rw [← heq]
      exact ⟨rfl, rfl⟩
    · rw [if_neg hid] at heq
      rw [← heq]
      exact ⟨rfl, rfl⟩

/-- A second stored conversation, used by the sendMessage witness. -/
def convW2 : Conversation :=
  { id := "c2", participantIds := ["alice", "carol"], lastMessageText := "",
    updatedAt := 0 }

/-- A witness database holding two conversations and no messages. -/
def dbMsgW : Database :=
  { users := [], listings := [], gallery := [],
    conversations := [convW, convW2], messages := [], nextId := 7 }

/-- Witness for C8: sending into the first conversation updates it, leaves
the second untouched and appends exactly the one sent message. -/
theorem sendMessage_frame_witness :
    ({ convW with lastMessageText := "hello", updatedAt := 3 } : Conversation)
        ∈ (sendMessage dbMsgW "c1" "alice" "hello" 3).conversations
    ∧ convW2 ∈ (sendMessage dbMsgW "c1" "alice" "hello" 3).conversations
    ∧ (sendMessage dbMsgW "c1" "alice" "hello" 3).messages
        = [{ id := mkDocId 7, conversationId := "c1", senderId := "alice",
             text := "hello", createdAt := 3 }] := by
  have h := sendMessage_frame dbMsgW "c1" "alice" "hello" 3
  refine ⟨h.2.1 convW (by simp [dbMsgW]) rfl,
    h.2.2.1 convW2 (by simp [dbMsgW]) (by decide), h.1.trans rfl⟩

theorem applyMapFilters_some_eq (listings : List Listing)
    (ptf : Option PostType) (cf : Option Category) (lt : ListingType) :
    applyMapFilters listings ptf cf (some lt)
      = (applyMapFilters listings ptf cf none).filter
          (fun l =>
            !(decide (l.postType = PostType.offer))
              || decide (l.listingType = lt)) := rfl

/-- Claim C4: the MapView filter pipeline retains every request row
irrespective of the deal-type filter value, and the listingType equality
test constrains only offer rows. -/
theorem mapFilters_request_rows (listings : List Listing)
    (ptf : Option PostType) (cf : Option Category) (ltf : Option ListingType) :
    (∀ l : Listing, l.postType = PostType.request →
        (l ∈ applyMapFilters listings ptf cf ltf
          ↔ l ∈ applyMapFilters listings ptf cf none))
    ∧ (∀ (l : Listing) (lt : ListingType), l.postType = PostType.offer →
        l ∈ applyMapFilters listings ptf cf (some lt) →
        l.listingType = lt) := by
  constructor
  · intro l hreq
    cases ltf with
    | none => exact Iff.rfl
    | some lt =>
      rw [applyMapFilters_some_eq, List.mem_filter]
      constructor
      · exact fun h => h.1
      · intro h
        exact ⟨h, by simp [hreq]⟩
  · intro l lt hoff hin
    rw [applyMapFilters_some_eq, List.mem_filter] at hin
    have hp := hin.2
    rw [hoff] at hp
    simpa using hp

/-- A request listing (with an arbitrary deal type) for the C4 witness. -/
noncomputable def reqListingW : Listing :=
  { title := "req", description := "", postType := .request,
    listingType := .sale, category := .silk, quantity := "", imageUrl := "",
    userId := "u", location := { latitude := 0, longitude := 0 },
    locationName := "", id := "R1", user := none }

/-- An offer listing with deal type free for the C4 witness. -/
noncomputable def offListingW : Listing :=
  { title := "off", description := "", postType := .offer,
    listingType := .free, category := .denim, quantity := "", imageUrl := "",
    userId := "u", location := { latitude := 0, longitude := 0 },
    locationName := "", id := "O1", user := none }

/-- Witness for C4: filtering on deal type free does not affect the request
row, and the retained offer row indeed has deal type free. -/
theorem mapFilters_request_rows_witness :
    (reqListingW ∈
        applyMapFilters [reqListingW, offListingW] none none
          (some ListingType.free)
      ↔ reqListingW ∈ applyMapFilters [reqListingW, offListingW] none none none)
    ∧ offListingW.listingType = ListingType.free := by
  have h := mapFilters_request_rows [reqListingW, offListingW] none none
    (some ListingType.free)
  refine ⟨h.1 reqListingW rfl, ?_⟩
  refine h.2 offListingW ListingType.free rfl ?_
  rw [applyMapFilters_some_eq]
  refine List.mem_filter.mpr ⟨?_, rfl⟩
  show offListingW ∈ ([reqListingW, offListingW] : List Listing)
  simp

/-- Claim C6: a vendor sign-up failure with code auth/email-already-in-use
is surfaced as the specific already-registered message, not the generic
fallback. -/
theorem signUp_email_already_in_use
    (profileRes saveRes : Except VendorError Unit) :
    (FS.signUp (.error { code := "auth/email-already-in-use" })
        profileRes saveRes).1
      = .error "Email is already registered"
    ∧ (FS.signUp (.error { code := "auth/email-already-in-use" })
        profileRes saveRes).1
      ≠ .error "Failed to create account. Please try again" := by
  refine ⟨rfl, fun h => ?_⟩
  exact absurd (Except.error.inj h) (by decide)

theorem signInErrorMessage_mem (code : String) :
    signInErrorMessage code ∈ userFacingMessages := by
  unfold signInErrorMessage
  split_ifs <;> decide

theorem signUpErrorMessage_mem (code : String) :
    signUpErrorMessage code ∈ userFacingMessages := by
  unfold signUpErrorMessage
  split_ifs <;> decide

/-- Claim C5 (amended): in the Firebase implementation of the service layer,
every backend call catches any underlying vendor error, logs it, and
re-throws one of the fixed short user-facing messages.  Each conjunct covers
one call and one failing vendor operation. -/
theorem firebase_calls_catch_log_and_translate (e : VendorError) :
    ((FS.signIn (.error e)).1 = .error (signInErrorMessage e.code)
      ∧ signInErrorMessage e.code ∈ userFacingMessages
      ∧ LogEntry.error "Sign in error:" e ∈ (FS.signIn (.error e)).2)
    ∧ ((FS.signOut (.error e)).1 = .error "Failed to sign out"
      ∧ "Failed to sign out" ∈ userFacingMessages
      ∧ LogEntry.error "Sign out error:" e ∈ (FS.signOut (.error e)).2)
    ∧ (∀ p s : Except VendorError Unit,
        (FS.signUp (.error e) p s).1 = .error (signUpErrorMessage e.code)
        ∧ signUpErrorMessage e.code ∈ userFacingMessages
        ∧ LogEntry.error "Sign up error:" e ∈ (FS.signUp (.error e) p s).2)
    ∧ (∀ (fu : FirebaseUser) (s : Except VendorError Unit),
        (FS.signUp (.ok fu) (.error e) s).1 = .error (signUpErrorMessage e.code)
        ∧ LogEntry.error "Sign up error:" e
            ∈ (FS.signUp (.ok fu) (.error e) s).2)
    ∧ (∀ fu : FirebaseUser,
        (FS.signUp (.ok fu) (.ok ()) (.error e)).1
            = .error (signUpErrorMessage e.code)
        ∧ LogEntry.error "Sign up error:" e
            ∈ (FS.signUp (.ok fu) (.ok ()) (.error e)).2)
    ∧ (∀ (fileName : String) (urlRes : Except VendorError String),
        (FS.uploadImage fileName (.error e) urlRes).1
            = .error "Failed to upload image. Please try again."
        ∧ "Failed to upload image. Please try again." ∈ userFacingMessages
        ∧ LogEntry.error "Upload error:" e
            ∈ (FS.uploadImage fileName (.error e) urlRes).2)
    ∧ (∀ fileName : String,
        (FS.uploadImage fileName (.ok ()) (.error e)).1
            = .error "Failed to upload image. Please try again."
        ∧ LogEntry.error "Upload error:" e
            ∈ (FS.uploadImage fileName (.ok ()) (.error e)).2)
    ∧ (∀ (d : ListingData) (uRes : Except VendorError (Option User)),
        (FS.createListing d (.error e) uRes).1
            = .error "Failed to create listing. Please try again."
        ∧ "Failed to create listing. Please try again." ∈ userFacingMessages
        ∧ LogEntry.error "Error creating listing:" e
            ∈ (FS.createListing d (.error e) uRes).2)
    ∧ (∀ (center : GeoPoint) (radius : ℝ) (users : List User),
        (FS.getNearbyListings center radius (.error e) users).1
            = .error "Failed to fetch listings. Please try again."
        ∧ "Failed to fetch listings. Please try again." ∈ userFacingMessages
        ∧ LogEntry.error "Error fetching nearby listings:" e
            ∈ (FS.getNearbyListings center radius (.error e) users).2)
    ∧ (∀ users : List User,
        (FS.getGalleryPosts (.error e) users).1
            = .error "Failed to fetch gallery posts. Please try again."
        ∧ "Failed to fetch gallery posts. Please try again."
            ∈ userFacingMessages
        ∧ LogEntry.error "Error fetching gallery posts:" e
            ∈ (FS.getGalleryPosts (.error e) users).2)
    ∧ (∀ (userId : String) (users : List User),
        (FS.getListingsForUser userId (.error e) users).1
            = .error "Failed to fetch your listings. Please try again."
        ∧ "Failed to fetch your listings. Please try again."
            ∈ userFacingMessages
        ∧ LogEntry.error "Error fetching user listings:" e
            ∈ (FS.getListingsForUser userId (.error e) users).2)
    ∧ (∀ listingId : String,
        (FS.deleteListing listingId (.error e)).1
            = .error "Failed to delete listing. Please try again."
        ∧ "Failed to delete listing. Please try again." ∈ userFacingMessages
        ∧ LogEntry.error "Error deleting listing:" e
            ∈ (FS.deleteListing listingId (.error e)).2)
    ∧ (∀ listingId : String,
        (FS.updateListing listingId (.error e)).1
            = .error "Failed to update listing. Please try again."
        ∧ "Failed to update listing. Please try again." ∈ userFacingMessages
        ∧ LogEntry.error "Error updating listing:" e
            ∈ (FS.updateListing listingId (.error e)).2)
    ∧ (∀ (db : Database) (u1 u2 : String) (now : Nat)
        (aRes : Except VendorError Unit),
        (FS.getOrCreateConversation db u1 u2 now (.error e) aRes).1
            = .error "Failed to start conversation. Please try again."
        ∧ "Failed to start conversation. Please try again."
            ∈ userFacingMessages
        ∧ LogEntry.error "Error getting or creating conversation:" e
            ∈ (FS.getOrCreateConversation db u1 u2 now (.error e) aRes).2)
    ∧ (∀ (db : Database) (u1 u2 : String) (now : Nat),
        findConversation db.conversations u1 u2 = none →
        (FS.getOrCreateConversation db u1 u2 now (.ok ()) (.error e)).1
            = .error "Failed to start conversation. Please try again."
        ∧ LogEntry.error "Error getting or creating conversation:" e
            ∈ (FS.getOrCreateConversation db u1 u2 now (.ok ()) (.error e)).2)
    ∧ (∀ (db : Database) (cid sid text : String) (now : Nat)
        (uRes : Except VendorError Unit),
        (FS.sendMessage db cid sid text now (.error e) uRes).1
            = .error "Failed to send message. Please try again."
        ∧ "Failed to send message. Please try again." ∈ userFacingMessages
        ∧ LogEntry.error "Error sending message:" e
            ∈ (FS.sendMessage db cid sid text now (.error e) uRes).2)
    ∧ (∀ (db : Database) (cid sid text : String) (now : Nat),
        (FS.sendMessage db cid sid text now (.ok ()) (.error e)).1
            = .error "Failed to send message. Please try again."
        ∧ LogEntry.error "Error sending message:" e
            ∈ (FS.sendMessage db cid sid text now (.ok ()) (.error e)).2) := by
  refine ⟨⟨rfl, signInErrorMessage_mem e.code, by simp [FS.signIn]⟩,
    ⟨rfl, by decide, by simp [FS.signOut]⟩,
    fun p s => ⟨rfl, signUpErrorMessage_mem e.code, by simp [FS.signUp]⟩,
    fun fu s => ⟨rfl, by simp [FS.signUp]⟩,
    fun fu => ⟨rfl, by simp [FS.signUp]⟩,
    fun fileName urlRes => ⟨rfl, by decide, by simp [FS.uploadImage]⟩,
    fun fileName => ⟨rfl, by simp [FS.uploadImage]⟩,
    fun d uRes => ⟨rfl, by decide, by simp [FS.createListing]⟩,
    fun center radius users => ⟨rfl, by decide, by simp [FS.getNearbyListings]⟩,
    fun users => ⟨rfl, by decide, by simp [FS.getGalleryPosts]⟩,
    fun userId users => ⟨rfl, by decide, by simp [FS.getListingsForUser]⟩,
    fun listingId => ⟨rfl, by decide, by simp [FS.deleteListing]⟩,
    fun listingId => ⟨rfl, by decide, by simp [FS.updateListing]⟩,
    fun db u1 u2 now aRes =>
      ⟨rfl, by decide, by simp [FS.getOrCreateConversation]⟩,
    fun db u1 u2 now hnone =>
      ⟨by simp [FS.getOrCreateConversation, hnone],
        by simp [FS.getOrCreateConversation, hnone]⟩,
    fun db cid sid text now uRes =>
      ⟨rfl, by decide, by simp [FS.sendMessage]⟩,
    fun db cid sid text now =>
      ⟨rfl, by simp [FS.sendMessage]⟩⟩

/-- An empty witness database. -/
def dbEmptyW : Database :=
  { users := [], listings := [], gallery := [], conversations := [],
    messages := [], nextId := 0 }

/-- Witness for the amended C5: a wrong-password sign-in failure is
translated to the invalid-credentials message, and an addDoc failure while
creating a conversation over an empty store is translated to the fixed
conversation message. -/
theorem firebase_calls_catch_log_and_translate_witness :
    (FS.signIn (.error { code := "auth/wrong-password" })).1
        = .error "Invalid email or password"
    ∧ (FS.getOrCreateConversation dbEmptyW "u" "v" 0 (.ok ())
        (.error { code := "unavailable" })).1
        = .error "Failed to start conversation. Please try again." := by
  have h := firebase_calls_catch_log_and_translate
    { code := "auth/wrong-password" }
  have h2 := firebase_calls_catch_log_and_translate { code := "unavailable" }
  obtain ⟨_, _, _, _, _, _, _, _, _, _, _, _, _, _, hgoc, _, _⟩ := h2
  exact ⟨h.1.1, (hgoc dbEmptyW "u" "v" 0 rfl).1⟩

/-- Counterexample to C5 as frozen: in the mock service implementation a
failing sign-in (unknown email) throws the raw message with no try/catch
and, in particular, no error log entry recording the failure. -/
theorem mock_signIn_no_catch_no_log :
    (Mock.signIn "nobody@example.com" "pw").1 = Except.error "User not found"
    ∧ (Mock.signIn "nobody@example.com" "pw").2.any isVendorErrorEntry
        = false :=
  ⟨rfl, rfl⟩

/-- Claim C7: the fallback geocoder resolves by case-insensitive substring
match, in order: london, manchester, then the Birmingham default. -/
theorem geocode_city_match (q : String) :
    (jsIncludes (jsToLower q) "london" = true →
        geocode q = { latitude := 51.5074, longitude := -0.1278 })
    ∧ (jsIncludes (jsToLower q) "london" = false →
        jsIncludes (jsToLower q) "manchester" = true →
        geocode q = { latitude := 53.4808, longitude := -2.2426 })
    ∧ (jsIncludes (jsToLower q) "london" = false →
        jsIncludes (jsToLower q) "manchester" = false →
        geocode q = { latitude := 52.4862, longitude := -1.8904 }) := by
  refine ⟨fun h => ?_, fun h1 h2 => ?_, fun h1 h2 => ?_⟩
  · simp [geocode, h]
  · simp [geocode, h1, h2]
  · simp [geocode, h1, h2]

/-- Witness for C7: one query per branch, exercising case insensitivity. -/
theorem geocode_city_match_witness :
    geocode "West LONDON" = { latitude := 51.5074, longitude := -0.1278 }
    ∧ geocode "Greater Manchester" = { latitude := 53.4808, longitude := -2.2426 }
    ∧ geocode "B1 postcode" = { latitude := 52.4862, longitude := -1.8904 } := by
  exact ⟨(geocode_city_match "West LONDON").1 (by decide),
    (geocode_city_match "Greater Manchester").2.1 (by decide) (by decide),
    (geocode_city_match "B1 postcode").2.2 (by decide) (by decide)⟩

/-- Claim C10: the fallback geocoder is total: every query, including the
empty string, resolves to one of the three city points, with Birmingham as
the default, so the caller never observes a geocoding failure from it. -/
theorem geocode_total :
    (∀ q : String,
      geocode q = { latitude := 51.5074, longitude := -0.1278 }
      ∨ geocode q = { latitude := 53.4808, longitude := -2.2426 }
      ∨ geocode q = { latitude := 52.4862, longitude := -1.8904 })
    ∧ geocode "" = { latitude := 52.4862, longitude := -1.8904 } := by
  constructor
  · intro q
    cases h1 : jsIncludes (jsToLower q) "london" with
    | true => exact Or.inl (by simp [geocode, h1])
    | false =>
      cases h2 : jsIncludes (jsToLower q) "manchester" with
      | true => exact Or.inr (Or.inl (by simp [geocode, h1, h2]))
      | false => exact Or.inr (Or.inr (by simp [geocode, h1, h2]))
  · have h1 : jsIncludes (jsToLower "") "london" = false := by decide
    have h2 : jsIncludes (jsToLower "") "manchester" = false := by decide
    simp [geocode, h1, h2]
